import Mathlib

/-!
Verification of the clixon controller core (device connection state machine,
sync/push RPC fan-out, differential edit engine) against its specification.

The definitions below are a shallow embedding of the C sources
`controller_device_state.c` and `controller_rpc.c`.  XML trees are modelled
as ordered labelled trees, datastores as association lists from device name
to subtree, and the per-device handle as an explicit record.  Calls into the
external clixon library (datastore engine, YANG parser, framed transport)
are modelled as oracle fields of an environment record, or, where their
behaviour decides a claim, from the specification text (such definitions
carry a doc comment starting with `Modelled from the spec:`).
-/

namespace Controller

/-- Device connection states, `conn_state_t` from controller_device_state.h.
`CS_PUSH_EDIT` appears in `controller_rpc.c` (push_device). -/
inductive conn_state where
  | CS_CLOSED
  | CS_CONNECTING
  | CS_SCHEMA_LIST
  | CS_SCHEMA_ONE
  | CS_DEVICE_SYNC
  | CS_OPEN
  | CS_WRESP
  | CS_PUSH_EDIT
deriving DecidableEq, Repr

open conn_state

/-- `csmap`: mapping between `conn_state` and its yang string, from
controller_device_state.c.  Note: `CS_PUSH_EDIT` has no entry. -/
def csmap : List (String × conn_state) :=
  [("CLOSED",       CS_CLOSED),
   ("CONNECTING",   CS_CONNECTING),
   ("SCHEMA_LIST",  CS_SCHEMA_LIST),
   ("SCHEMA_ONE",   CS_SCHEMA_ONE),
   ("DEVICE-SYNC",  CS_DEVICE_SYNC),
   ("OPEN",         CS_OPEN),
   ("WRESP",        CS_WRESP)]

/-- `device_state_int2str`: map a connection state to its string via `csmap`.
`clicon_int2str` returns NULL when the state is absent from the map. -/
def device_state_int2str (st : conn_state) : Option String :=
  (csmap.find? (fun p => p.2 = st)).map (fun p => p.1)

/-- glibc renders a NULL argument of a string format directive as "(null)";
`device_close_connection` formats log messages with `vsnprintf`. -/
def strOrNull (s : Option String) : String :=
  match s with
  | some str => str
  | none => "(null)"

/-- Configuration states, `config_state_t` (`cfmap`). -/
inductive config_state where
  | CF_CLOSED
  | CF_YANG
  | CF_VALIDATE
deriving DecidableEq, Repr

mutual
/-- An XML configuration tree: element name, optional body text, ordered
children (the arena-of-nodes tree of the source, values abstracted to
strings). -/
inductive XTree where
  | node : String → Option String → XForest → XTree
deriving DecidableEq, Repr
/-- An ordered list of sibling XML subtrees. -/
inductive XForest where
  | nil : XForest
  | cons : XTree → XForest → XForest
deriving DecidableEq, Repr
end

namespace XTree

/-- Element name of a node. -/
def name : XTree → String
  | .node n _ _ => n

/-- Body text of a node. -/
def value : XTree → Option String
  | .node _ v _ => v

end XTree

/-- Result of `xml_diff`: vector of nodes only in the source tree (deletes),
vector of nodes only in the target tree (adds), and pairs of changed nodes. -/
structure DiffResult where
  dvec : List XTree
  avec : List XTree
  chvec : List (XTree × XTree)
deriving DecidableEq, Repr

/-- The empty edit script. -/
def DiffResult.empty : DiffResult := ⟨[], [], []⟩

/-- Concatenation of edit scripts, preserving document order. -/
def DiffResult.append (a b : DiffResult) : DiffResult :=
  ⟨a.dvec ++ b.dvec, a.avec ++ b.avec, a.chvec ++ b.chvec⟩

mutual
/-- Modelled from the spec: the differential edit engine (§4.5), the
behaviour of the external clixon `xml_diff` used by `push_device`.  Walks
both trees in tandem in document order: a child present in `prev` only is a
delete, present in `next` only an add, present in both with different leaf
values a change; otherwise recurse. -/
def xml_diff_tree : XTree → XTree → DiffResult
  | .node _ _ c0, .node _ _ c1 => xml_diff_forest c0 c1
termination_by t0 t1 => sizeOf t0 + sizeOf t1
/-- Modelled from the spec: tandem walk of two ordered child lists (§4.5). -/
def xml_diff_forest : XForest → XForest → DiffResult
  | .nil, .nil => DiffResult.empty
  | .cons x xs, .nil =>
      DiffResult.append ⟨[x], [], []⟩ (xml_diff_forest xs .nil)
  | .nil, .cons y ys =>
      DiffResult.append ⟨[], [y], []⟩ (xml_diff_forest .nil ys)
  | .cons x xs, .cons y ys =>
      if x.name < y.name then
        DiffResult.append ⟨[x], [], []⟩ (xml_diff_forest xs (.cons y ys))
      else if y.name < x.name then
        DiffResult.append ⟨[], [y], []⟩ (xml_diff_forest (.cons x xs) ys)
      else
        DiffResult.append
          (if x.value = y.value then xml_diff_tree x y else ⟨[], [], [(x, y)]⟩)
          (xml_diff_forest xs ys)
termination_by f0 f1 => sizeOf f0 + sizeOf f1
end

mutual
/-- Diff idempotence for a single subtree: diffing a tree against itself
yields the empty edit script. -/
theorem xml_diff_tree_self (t : XTree) : xml_diff_tree t t = DiffResult.empty := by
  match t with
  | .node n v c =>
    rw [xml_diff_tree]
    exact xml_diff_forest_self c
termination_by sizeOf t + sizeOf t
/-- Diff idempotence for a forest of siblings. -/
theorem xml_diff_forest_self (f : XForest) : xml_diff_forest f f = DiffResult.empty := by
  match f with
  | .nil => rw [xml_diff_forest]
  | .cons x xs =>
    rw [xml_diff_forest]
    simp only [lt_irrefl, if_false, if_pos rfl]
    rw [xml_diff_tree_self x, xml_diff_forest_self xs]
    rfl
termination_by sizeOf f + sizeOf f
end

/-- A YANG module entry of the RFC 8525 yang-library built by
`schema_list2yang_library` (name, revision, namespace). -/
structure Module where
  mname : String
  mrev : String
  mns : String
deriving DecidableEq, Repr

/-- An RFC 6022 netconf-monitoring schema entry as received from the peer
(child elements of one `<schema>` node). -/
structure SchemaEntry where
  identifier : Option String
  version : Option String
  ns : Option String
  format : Option String
  locations : List String
deriving DecidableEq, Repr

/-- One `devices/device` entry of a datastore: the children the sources read
(`xml_find_body` on `devname`, `name`, `enabled`, `conn-type`, `addr`,
`user`) plus the `root` mount point holding the device configuration. -/
structure ConfigEntry where
  devname : Option String
  name : Option String
  root : Option XTree
  enabled : Option String
  conn_type : Option String
  addr : Option String
  user : Option String
deriving DecidableEq, Repr

/-- The external datastore engine state consumed through `xmldb_put`,
`xmldb_get`, `xmldb_copy` and `candidate_commit`, plus the shared local YANG
schema file cache written by `device_state_recv_get_schema` and read by
`yang_file_find_match` (pairs of module name and optional revision). -/
structure Dbs where
  running : List ConfigEntry
  candidate : List ConfigEntry
  files : List (String × Option String)
deriving DecidableEq, Repr

/-- The per-device handle (`device_handle` of controller_device_handle.h):
connection state, diagnostic log message, socket, registered fd event,
pending timeout, frame reassembly state, message-id counter, capabilities,
device yspec (as the list of parsed module name/revision pairs), RFC 8525
yang-library, current get-schema target, schema counter, last-synced tree
and time, and config-state. -/
structure DevHandle where
  dhName : String
  conn : conn_state
  logmsg : Option String
  socket : Option Nat
  fdRegistered : Bool
  timer : Option Nat
  frame_state : Nat
  frame_size : Nat
  frame_buf : String
  msg_id : Nat
  caps : Option (List String)
  yspec : Option (List (String × String))
  yang_lib : Option (List Module)
  schema_name : Option String
  schema_rev : Option String
  nr_schemas : Nat
  sync_xml : Option XTree
  sync_time : Option Nat
  cf : config_state
deriving DecidableEq, Repr

/-- `device_handle_capabilities_find`: membership of a URI in the stored
capability set. -/
def DevHandle.capFind (dh : DevHandle) (uri : String) : Bool :=
  match dh.caps with
  | some cs => uri ∈ cs
  | none => false

/-- `device_close_connection`: unregister the fd event and the timeout,
disconnect (close the socket and reap sub-processes), clear the
yang-library, set the connection state to `CS_CLOSED` and store the log
message.  The frame reassembly buffer is not touched. -/
def device_close_connection (dh : DevHandle) (msg : Option String) : DevHandle :=
  { dh with
    fdRegistered := false
    timer := none
    socket := none
    yang_lib := none
    conn := CS_CLOSED
    logmsg := msg }

/-- Read-only oracle environment: current time, the
`controller_device_timeout` option (0 when unset), and the outcomes of the
external library calls `yang_lib2yspec` (applied to the device
yang-library), `xml_bind_yang` on the pulled data, `xmldb_put` to candidate
and `candidate_commit`. -/
structure Env where
  now : Nat
  device_timeout : Nat
  parseOk : Option (List Module) → Bool
  bindOk : Bool
  putOk : Bool
  commitOk : Bool

/-- Timeout duration of `device_state_timeout_register`: the configured
`controller_device_timeout` when non-zero, otherwise 60 seconds. -/
def timeoutDuration (configured : Nat) : Nat :=
  if configured ≠ 0 then configured else 60

/-- `device_state_timeout_register`: register a fresh timeout expiring after
`timeoutDuration`. -/
def device_state_timeout_register (env : Env) (dh : DevHandle) : DevHandle :=
  { dh with timer := some (env.now + timeoutDuration env.device_timeout) }

/-- `device_state_timeout_unregister`: cancel the pending timeout. -/
def device_state_timeout_unregister (dh : DevHandle) : DevHandle :=
  { dh with timer := none }

/-- `device_state_timeout_restart`: cancel the previous timeout and register
a fresh one. -/
def device_state_timeout_restart (env : Env) (dh : DevHandle) : DevHandle :=
  device_state_timeout_register env (device_state_timeout_unregister dh)

/-- `device_state_timeout`: timeout callback of transient states, closes the
connection with the timeout diagnostic. -/
def device_state_timeout (dh : DevHandle) : DevHandle :=
  device_close_connection dh (some "Timeout waiting for remote peer")

/-- Messages sent to a device by the state machine, tagged with the
`message-id` used (except `hello` which carries none). -/
inductive OutMsg where
  | helloMsg (version : Nat)
  | getSchemaList (msgid : Nat)
  | getSchema (msgid : Nat) (identifier : String) (version : String)
  | getConfigRunning (msgid : Nat)
  | editConfig (msgid : Nat)
deriving DecidableEq, Repr

/-- Return codes of the state machine functions: C retval -1 / 0 / 1. -/
inductive RC where
  | err
  | closed
  | ok
deriving DecidableEq, Repr

/-- The mutable world threaded through the state machine: the device handle,
the datastores and the `netconf-framing` option. -/
structure World where
  dh : DevHandle
  dbs : Dbs
  framing : Nat
deriving DecidableEq, Repr

/-- Result of one state machine step: return code, updated world, messages
sent to the device. -/
structure StepR where
  rc : RC
  w : World
  sent : List OutMsg
deriving DecidableEq, Repr

/-- Close the connection of the world's device with a log message. -/
def closeW (w : World) (msg : String) : World :=
  { w with dh := device_close_connection w.dh (some msg) }

/-- Send one framed RPC built from the next message-id
(`device_handle_msg_id_getinc` then `clicon_msg_send1`); the counter is
incremented even when the send on a closed socket fails. -/
def sendRpc (w : World) (mk : Nat → OutMsg) : StepR :=
  let m := mk w.dh.msg_id
  let dh1 := { w.dh with msg_id := w.dh.msg_id + 1 }
  match dh1.socket with
  | some _ => ⟨.ok, { w with dh := dh1 }, [m]⟩
  | none => ⟨.err, { w with dh := dh1 }, []⟩

/-- `device_send_sync`: send a `get-config` with source `running` (the
`get` variant is dead code behind `if (1)`). -/
def device_send_sync (w : World) : StepR :=
  sendRpc w OutMsg.getConfigRunning

/-- `device_send_get_schema_list`: request the RFC 6022 schema list. -/
def device_send_get_schema_list (w : World) : StepR :=
  sendRpc w OutMsg.getSchemaList

/-- The netconf base namespace. -/
def NETCONF_BASE_NAMESPACE : String := "urn:ietf:params:xml:ns:netconf:base:1.0"

/-- A message received from the device, as seen by `device_state_handler`:
the RPC name, the namespace bound to its prefix, and the payloads the
receive functions extract. -/
structure InMsg where
  rpcname : String
  ns : Option String
  caps : Option (List String)
  schemas : Option (List SchemaEntry)
  yangBody : Option String
  data : Option XTree
deriving DecidableEq, Repr

/-- The log message for an unexpected RPC name, `"Unexpected msg %s in state
%s"` formatted with the message name and `device_state_int2str` of the
current state. -/
def unexpectedMsgLog (rpcname : String) (st : conn_state) : String :=
  "Unexpected msg " ++ rpcname ++ " in state " ++ strOrNull (device_state_int2str st)

/-- `device_state_recv_hello`: receive the peer hello, store its
capabilities, determine the netconf version, set the framing option
(hard-coded to 0 in the source) and send our hello. -/
def device_state_recv_hello (w : World) (m : InMsg) : StepR :=
  if m.rpcname ≠ "hello" then
    ⟨.closed, closeW w (unexpectedMsgLog m.rpcname w.dh.conn), []⟩
  else if m.ns ≠ some NETCONF_BASE_NAMESPACE then
    ⟨.closed, closeW w ("No appropriate namespace associated with " ++ strOrNull m.ns), []⟩
  else
    match m.caps with
    | none => ⟨.err, w, []⟩
    | some cs =>
      let w := { w with dh := { w.dh with caps := some cs } }
      if "urn:ietf:params:netconf:base:1.1" ∈ cs ∨
         "urn:ietf:params:netconf:base:1.0" ∈ cs then
        -- the source sets `version` to 1 when base 1.1 is advertised and 0
        -- otherwise, then overwrites it: `version = 0; /* XXX hardcoded */`
        let version : Nat := 0
        let w := { w with framing := version }
        match w.dh.socket with
        | some _ => ⟨.ok, w, [OutMsg.helloMsg version]⟩
        | none => ⟨.err, w, []⟩
      else
        ⟨.closed, closeW w "No base netconf capability found", []⟩

/-- `schema_check_location_netconf`: the entry has a `location` child with
body `NETCONF`. -/
def schema_check_location_netconf (e : SchemaEntry) : Bool :=
  "NETCONF" ∈ e.locations

/-- `schema_list2yang_library`: translate the RFC 6022 schema list into an
RFC 8525 yang-library module set, keeping entries that carry identifier,
version, namespace and format, whose format is `yang` and that have a
NETCONF location. -/
def schema_list2yang_library (xs : List SchemaEntry) : List Module :=
  xs.filterMap (fun e =>
    match e.identifier, e.version, e.ns, e.format with
    | some i, some v, some n, some f =>
      if f = "yang" ∧ schema_check_location_netconf e then
        some ⟨i, v, n⟩
      else none
    | _, _, _, _ => none)

/-- `device_state_recv_schema_list`: receive the netconf-state schema list
and store it on the handle as a yang-library. -/
def device_state_recv_schema_list (w : World) (m : InMsg) : StepR :=
  if m.rpcname ≠ "rpc-reply" then
    ⟨.closed, closeW w (unexpectedMsgLog m.rpcname w.dh.conn), []⟩
  else if m.ns ≠ some NETCONF_BASE_NAMESPACE then
    ⟨.closed, closeW w ("No appropriate namespace associated with:" ++ strOrNull m.ns), []⟩
  else
    match m.schemas with
    | none => ⟨.closed, closeW w "No schemas returned", []⟩
    | some xs =>
      ⟨.ok, { w with dh := { w.dh with yang_lib := some (schema_list2yang_library xs) } }, []⟩

/-- `device_state_recv_get_schema`: receive a get-schema reply and write the
decoded module body to the local schema cache as
`<name>[@<revision>].yang`. -/
def device_state_recv_get_schema (w : World) (m : InMsg) : StepR :=
  if m.rpcname ≠ "rpc-reply" then
    ⟨.closed, closeW w (unexpectedMsgLog m.rpcname w.dh.conn), []⟩
  else if m.ns ≠ some NETCONF_BASE_NAMESPACE then
    ⟨.closed, closeW w ("No appropriate namespace associated with:" ++ strOrNull m.ns), []⟩
  else
    match m.yangBody with
    | none => ⟨.closed, closeW w "Invalid get-schema, no YANG body", []⟩
    | some _ =>
      let fileKey := (strOrNull w.dh.schema_name, w.dh.schema_rev)
      let dbs := { w.dbs with files := fileKey :: w.dbs.files }
      ⟨.ok, { w with dbs := dbs }, []⟩

/-- `yang_file_find_match`: the local schema cache holds a file for this
module name and revision. -/
def yang_file_find_match (dbs : Dbs) (n r : String) : Bool :=
  (n, some r) ∈ dbs.files

/-- The scan of `device_send_get_schema_next` over the yang-library module
list from index `nr`: skip modules already in the device yspec or present in
the local file cache; return the first module to fetch together with the
updated index. -/
def schema_next_loop (dbs : Dbs) (loaded : List (String × String))
    (mods : List Module) (nr : Nat) : Option Module × Nat :=
  if h : nr < mods.length then
    let md := mods.get ⟨nr, h⟩
    if (md.mname, md.mrev) ∈ loaded ∨ yang_file_find_match dbs md.mname md.mrev then
      schema_next_loop dbs loaded mods (nr + 1)
    else (some md, nr + 1)
  else (none, nr)
termination_by mods.length - nr

/-- Result of `device_send_get_schema_next`: return code, whether a
get-schema was sent, the updated index, world and sent messages. -/
structure SchemaNextR where
  rc : RC
  found : Bool
  nr : Nat
  w : World
  sent : List OutMsg
deriving DecidableEq, Repr

/-- `device_send_get_schema_next`: send the next missing module fetch; an
absent yspec is an error; an absent yang-library yields no modules.  On a
send the fetched module name and revision are recorded on the handle. -/
def device_send_get_schema_next (w : World) (nr : Nat) : SchemaNextR :=
  match w.dh.yspec with
  | none => ⟨.err, false, nr, w, []⟩
  | some loaded =>
    let mods := w.dh.yang_lib.getD []
    match schema_next_loop w.dbs loaded mods nr with
    | (none, nr1) => ⟨.ok, false, nr1, w, []⟩
    | (some md, nr1) =>
      let s := sendRpc w (fun i => OutMsg.getSchema i md.mname md.mrev)
      match s.rc with
      | .err => ⟨.err, false, nr1, s.w, s.sent⟩
      | _ =>
        ⟨.ok, true, nr1,
         { s.w with dh := { s.w.dh with schema_name := some md.mname, schema_rev := some md.mrev } },
         s.sent⟩

/-- `device_state_schemas_ready`: parse all fetched modules into the device
yspec (`yang_lib2yspec`, outcome from the environment oracle) and attach the
yspec at the device mount point; a parse failure returns 0. -/
def device_state_schemas_ready (env : Env) (w : World) : StepR :=
  match w.dh.yspec with
  | none => ⟨.err, w, []⟩
  | some _ =>
    if env.parseOk w.dh.yang_lib then
      let mods := (w.dh.yang_lib.getD []).map (fun md => (md.mname, md.mrev))
      ⟨.ok, { w with dh := { w.dh with yspec := some mods } }, []⟩
    else
      ⟨.closed, w, []⟩

/-- `xmldb_put` of the device mount tree built by
`device_state_mount_point_get` with `nc:operation="replace"` on the root
mount point: the `root` subtree of the device entry named `devname` is
replaced by the pulled tree, the entry being created when absent. -/
def dbPutDeviceRoot (db : List ConfigEntry) (devname : String) (pulled : XTree) :
    List ConfigEntry :=
  match db with
  | [] => [{ devname := none, name := some devname, root := some pulled,
             enabled := none, conn_type := none, addr := none, user := none }]
  | e :: es =>
    if e.name = some devname then { e with root := some pulled } :: es
    else e :: dbPutDeviceRoot es devname pulled

/-- The tree written under the device mount point by
`device_state_recv_config`: the children of the received `<data>` moved
under the `root` mount point (`xml_addsub` loop). -/
def pulledRoot (d : Option XTree) : XTree :=
  XTree.node "root" none
    (match d with
     | some (XTree.node _ _ c) => c
     | none => XForest.nil)

/-- `device_state_recv_config`: bind the pulled configuration to the device
yspec, write it to the candidate datastore under the device mount point with
replace semantics and commit (validation level chosen by the config-state);
on put or commit failure the candidate is restored from running and the
session closes with "Failed to commit"; on success the sync time is set. -/
def device_state_recv_config (env : Env) (w : World) (m : InMsg) : StepR :=
  if m.rpcname ≠ "rpc-reply" then
    ⟨.closed, closeW w (unexpectedMsgLog m.rpcname w.dh.conn), []⟩
  else if m.ns ≠ some NETCONF_BASE_NAMESPACE then
    ⟨.closed, closeW w ("No appropriate namespace associated with:" ++ strOrNull m.ns), []⟩
  else
    match w.dh.yspec with
    | none => ⟨.closed, closeW w "No YANGs available", []⟩
    | some _ =>
      if ¬ env.bindOk then
        ⟨.closed, closeW w "YANG binding failed at mountpoint:", []⟩
      else
        let pulled : XTree := pulledRoot m.data
        let cand1 := dbPutDeviceRoot w.dbs.candidate w.dh.dhName pulled
        if env.putOk ∧ env.commitOk then
          let dbs := { w.dbs with candidate := cand1, running := cand1 }
          ⟨.ok, { w with dbs := dbs, dh := { w.dh with sync_time := some env.now } }, []⟩
        else
          let dbs := { w.dbs with candidate := w.dbs.running }
          ⟨.closed, closeW { w with dbs := dbs } "Failed to commit", []⟩

/-- The tail shared by the `CS_SCHEMA_LIST` and `CS_SCHEMA_ONE` cases of
`device_state_handler` (duplicated in the source): request the next missing
schema; when none is left parse all modules, then request the device running
configuration and move to `CS_DEVICE_SYNC`; when one was sent record the
index and sit in `CS_SCHEMA_ONE` (`setOne` distinguishes whether the source
case sets the connection state). -/
def schemaPhase (env : Env) (w : World) (acc : List OutMsg) (nr0 : Nat)
    (setOne : Bool) : StepR :=
  let g := device_send_get_schema_next w nr0
  match g.rc with
  | .err => ⟨.err, g.w, acc ++ g.sent⟩
  | _ =>
    if g.found then
      let dh1 := { g.w.dh with nr_schemas := g.nr }
      let dh1 := if setOne then { dh1 with conn := CS_SCHEMA_ONE } else dh1
      ⟨.ok, { g.w with dh := device_state_timeout_restart env dh1 }, acc ++ g.sent⟩
    else
      let p := device_state_schemas_ready env g.w
      match p.rc with
      | .err => ⟨.err, p.w, acc ++ g.sent⟩
      | .closed => ⟨.ok, closeW p.w "YANG parse error", acc ++ g.sent⟩
      | .ok =>
        let s := device_send_sync p.w
        match s.rc with
        | .err => ⟨.err, s.w, acc ++ g.sent ++ s.sent⟩
        | _ =>
          let dh1 := device_state_timeout_restart env { s.w.dh with conn := CS_DEVICE_SYNC }
          ⟨.ok, { s.w with dh := dh1 }, acc ++ g.sent ++ s.sent⟩

/-- `device_state_handler`: the controller device state machine, dispatching
one received message on the current connection state.  The `CS_WRESP` case
of the source is compiled out (`#ifdef NOTUSED`), so `CS_CLOSED`, `CS_OPEN`,
`CS_WRESP` and `CS_PUSH_EDIT` all fall to the default case which closes with
the unexpected-message diagnostic.  Note that the `CS_SCHEMA_LIST` case does
not stop when the receive function closed the connection. -/
def device_state_handler (env : Env) (w : World) (m : InMsg) : StepR :=
  let conn0 := w.dh.conn
  match conn0 with
  | CS_CONNECTING =>
    let r := device_state_recv_hello w m
    match r.rc with
    | .err => ⟨.err, r.w, r.sent⟩
    | .closed => ⟨.ok, r.w, r.sent⟩
    | .ok =>
      let w1 := { r.w with dh := { r.w.dh with yspec := some [] } }
      if ¬ w1.dh.capFind "urn:ietf:params:xml:ns:yang:ietf-netconf-monitoring" then
        ⟨.ok, closeW w1 "No method to get schemas", r.sent⟩
      else
        let s := device_send_get_schema_list w1
        match s.rc with
        | .err => ⟨.err, s.w, r.sent ++ s.sent⟩
        | _ =>
          let dh2 := device_state_timeout_restart env { s.w.dh with conn := CS_SCHEMA_LIST }
          ⟨.ok, { s.w with dh := dh2 }, r.sent ++ s.sent⟩
  | CS_SCHEMA_LIST =>
    let r := device_state_recv_schema_list w m
    match r.rc with
    | .err => ⟨.err, r.w, r.sent⟩
    | _ => schemaPhase env r.w r.sent 0 true
  | CS_SCHEMA_ONE =>
    let r := device_state_recv_get_schema w m
    match r.rc with
    | .err => ⟨.err, r.w, r.sent⟩
    | .closed => ⟨.ok, r.w, r.sent⟩
    | .ok => schemaPhase env r.w r.sent r.w.dh.nr_schemas false
  | CS_DEVICE_SYNC =>
    let r := device_state_recv_config env w m
    match r.rc with
    | .err => ⟨.err, r.w, r.sent⟩
    | .closed => ⟨.ok, r.w, r.sent⟩
    | .ok =>
      let dh2 := device_state_timeout_unregister { r.w.dh with conn := CS_OPEN }
      ⟨.ok, { r.w with dh := dh2 }, r.sent⟩
  | _ =>
    ⟨.ok, closeW w (unexpectedMsgLog m.rpcname conn0), []⟩

/-- One read event on a device socket, as decoded by the external framed
transport `netconf_input_msg` and `netconf_input_frame` (§4.1): the bytes
appended to the frame buffer, the end-of-message and end-of-file flags, the
updated chunked-framing state, whether the complete frame parsed, and the
parsed message. -/
structure InputEvent where
  payload : String
  eom : Bool
  eof : Bool
  frame_state : Nat
  frame_size : Nat
  valid : Bool
  msg : Option InMsg
deriving DecidableEq, Repr

/-- `device_input_cb`: accumulate input into the frame buffer; on
end-of-file close the connection (the buffer keeps any partial frame); on an
incomplete frame store the framing state and return; on a complete frame
reset the buffer, close on an invalid frame, else run `device_state_handler`
on the parsed message. -/
def device_input_cb (env : Env) (w : World) (ev : InputEvent) : StepR :=
  let w := { w with dh := { w.dh with frame_buf := w.dh.frame_buf ++ ev.payload } }
  if ev.eof then
    ⟨.ok, closeW w "Remote socket endpoint closed", []⟩
  else
    let w := { w with dh :=
      { w.dh with frame_state := ev.frame_state, frame_size := ev.frame_size } }
    if ¬ ev.eom then
      ⟨.ok, w, []⟩
    else
      let w := { w with dh := { w.dh with frame_buf := "" } }
      if ¬ ev.valid then
        ⟨.ok, closeW w "Invalid frame", []⟩
      else
        match ev.msg with
        | none => ⟨.ok, w, []⟩
        | some m => device_state_handler env w m

/-- Transaction states (spec §3). -/
inductive TState where
  | INIT
  | RUNNING
  | SUCCESS
  | FAILED
  | ERROR
deriving DecidableEq, Repr

/-- Modelled from the spec: a controller transaction record
(controller_transaction.c is not under src/): id, origin and state. -/
structure Transaction where
  ct_id : Nat
  ct_origin : Option String
  ct_state : TState
deriving DecidableEq, Repr

/-- The backend state seen by the RPC handlers of controller_rpc.c: the
device handles, the datastores, the `netconf-framing` option and the
transaction registry. -/
structure CtrlWorld where
  handles : List DevHandle
  dbs : Dbs
  framing : Nat
  transactions : List Transaction
deriving DecidableEq, Repr

/-- `device_handle_find`: look a device handle up by name. -/
def device_handle_find (hs : List DevHandle) (n : String) : Option DevHandle :=
  hs.find? (fun d => d.dhName = n)

/-- Write back an in-place mutation of the handle found by
`device_handle_find`: replace the first handle of that name. -/
def updateHandle : List DevHandle → DevHandle → List DevHandle
  | [], _ => []
  | d :: ds, dh => if d.dhName = dh.dhName then dh :: ds else d :: updateHandle ds dh

/-- Modelled from the spec: `device_handle_new`
(controller_device_handle.c is not under src/): create a handle for the
name with initial CLOSED state, message-id 1 and empty fields, or return
the existing handle of that name. -/
def device_handle_new (hs : List DevHandle) (n : String) : List DevHandle × DevHandle :=
  match device_handle_find hs n with
  | some dh => (hs, dh)
  | none =>
    let dh : DevHandle :=
      { dhName := n, conn := CS_CLOSED, logmsg := none, socket := none,
        fdRegistered := false, timer := none, frame_state := 0, frame_size := 0,
        frame_buf := "", msg_id := 1, caps := none, yspec := none,
        yang_lib := none, schema_name := none, schema_rev := none,
        nr_schemas := 0, sync_xml := none, sync_time := none, cf := .CF_CLOSED }
    (hs ++ [dh], dh)

/-- Modelled from the spec: glob matching with `*` and `?` wildcards (libc
`fnmatch` with no flags, as called by the RPC loops). -/
def globMatch : List Char → List Char → Bool
  | [], [] => true
  | [], _ :: _ => false
  | p :: ps, [] => if p = Char.ofNat 42 then globMatch ps [] else false
  | p :: ps, c :: cs =>
      if p = Char.ofNat 42 then globMatch ps (c :: cs) || globMatch (p :: ps) cs
      else if p = Char.ofNat 63 then globMatch ps cs
      else (p = c) && globMatch ps cs
termination_by ps cs => (ps.length, cs.length)

/-- `fnmatch(pattern, devname, 0) != 0`: the device name does not match the
glob pattern. -/
def fnmatchFails (pattern devname : String) : Bool :=
  ¬ globMatch pattern.toList devname.toList

/-- The result of `push_device`/`pull_device`: return code (1 OK, 0 fail
with the `netconf_operation_failed` reason in `cbret`, -1 error), the
updated handle and the messages sent. -/
structure RpcDevR where
  rc : RC
  dh : DevHandle
  sent : List OutMsg
  cbret : Option String
deriving DecidableEq, Repr

/-- The xpath `devices/device[name=N]/root` over a datastore. -/
def runningDeviceRoot (db : List ConfigEntry) (n : String) : Option XTree :=
  match db.find? (fun e => e.name = some n) with
  | some e => e.root
  | none => none

/-- `push_device`: fetch the previously synced tree and the current desired
tree from running, diff them, and when the diff is non-empty send an
edit-config built from it, move the device to `CS_PUSH_EDIT` and register
the push timeout; an empty diff sends nothing and leaves the handle
untouched. -/
def push_device (env : Env) (running : List ConfigEntry) (dh : DevHandle) : RpcDevR :=
  match dh.sync_xml with
  | none => ⟨.closed, dh, [], some "No synced device tree"⟩
  | some x0 =>
    match runningDeviceRoot running dh.dhName with
    | none => ⟨.closed, dh, [], some "Device not configured"⟩
    | some x1 =>
      match dh.yspec with
      | none => ⟨.closed, dh, [], some "No YANGs in device"⟩
      | some _ =>
        let d := xml_diff_tree x0 x1
        if d.dvec ≠ [] ∨ d.avec ≠ [] ∨ d.chvec ≠ [] then
          let m := OutMsg.editConfig dh.msg_id
          let dh1 := { dh with msg_id := dh.msg_id + 1 }
          match dh1.socket with
          | none => ⟨.err, dh1, [], none⟩
          | some _ =>
            let dh2 := device_state_timeout_register env { dh1 with conn := CS_PUSH_EDIT }
            ⟨.ok, dh2, [m], none⟩
        else
          ⟨.ok, dh, [], none⟩

/-- `pull_device`: send a get-config sync request, register the timeout and
move the device to `CS_DEVICE_SYNC`. -/
def pull_device (env : Env) (dh : DevHandle) : RpcDevR :=
  let m := OutMsg.getConfigRunning dh.msg_id
  let dh1 := { dh with msg_id := dh.msg_id + 1 }
  match dh1.socket with
  | none => ⟨.err, dh1, [], none⟩
  | some _ =>
    let dh2 := device_state_timeout_register env { dh1 with conn := CS_DEVICE_SYNC }
    ⟨.ok, dh2, [m], none⟩

/-- An rpc reply buffer: `<ok/>` or the `netconf_operation_failed` reason. -/
inductive Reply where
  | okReply
  | failReply (reason : String)
deriving DecidableEq, Repr

/-- Result of an RPC handler: C return code (0 OK, -1 error), updated
backend state, messages sent per device, and the reply buffer (none when
nothing was written to `cbret`). -/
structure SyncOut where
  rc : RC
  st : CtrlWorld
  sent : List (String × OutMsg)
  reply : Option Reply
deriving DecidableEq, Repr

/-- The device loop of `rpc_sync`: iterate the `devices/device` entries of
running; skip entries without a `devname` body, without a handle, with a
handle not in `CS_OPEN`, or failing the pattern match; drive the rest
through `push_device` or `pull_device`; a 0 return stops the loop and
replies with the failure (`goto ok`); when the loop completes reply
`<ok/>`. -/
def rpc_sync_loop (env : Env) (entries : List ConfigEntry) (st : CtrlWorld)
    (pattern : Option String) (push : Bool) (acc : List (String × OutMsg)) :
    SyncOut :=
  match entries with
  | [] => ⟨.ok, st, acc, some .okReply⟩
  | e :: es =>
    match e.devname with
    | none => rpc_sync_loop env es st pattern push acc
    | some devname =>
      match device_handle_find st.handles devname with
      | none => rpc_sync_loop env es st pattern push acc
      | some dh =>
        if dh.conn ≠ CS_OPEN then
          rpc_sync_loop env es st pattern push acc
        else if (match pattern with
                 | some p => fnmatchFails p devname
                 | none => false) then
          rpc_sync_loop env es st pattern push acc
        else
          let r := if push then push_device env st.dbs.running dh
                   else pull_device env dh
          let st1 := { st with handles := updateHandle st.handles r.dh }
          let acc1 := acc ++ r.sent.map (fun m => (devname, m))
          match r.rc with
          | .err => ⟨.err, st1, acc1, none⟩
          | .closed => ⟨.ok, st1, acc1, some (.failReply (r.cbret.getD ""))⟩
          | .ok => rpc_sync_loop env es st1 pattern push acc1

/-- The request body of a sync/reconnect RPC (`<devname>` glob). -/
structure RpcReq where
  devname : Option String
deriving DecidableEq, Repr

/-- `rpc_sync`: sync to or from devices.  `pattern` is declared NULL in the
source and never assigned from the request, so the request is ignored. -/
def rpc_sync (env : Env) (st : CtrlWorld) (_xe : RpcReq) (push : Bool) : SyncOut :=
  let pattern : Option String := none
  rpc_sync_loop env st.dbs.running st pattern push []

/-- `rpc_sync_pull`. -/
def rpc_sync_pull (env : Env) (st : CtrlWorld) (xe : RpcReq) : SyncOut :=
  rpc_sync env st xe false

/-- `rpc_sync_push`. -/
def rpc_sync_push (env : Env) (st : CtrlWorld) (xe : RpcReq) : SyncOut :=
  rpc_sync env st xe true

/-- `connect_netconf_ssh`: require a CLOSED handle, connect the transport
(socket abstracted as fd 0), register the connect timeout, enter
`CS_CONNECTING`, reset the framing option to end-of-message and register the
fd event. -/
def connect_netconf_ssh (env : Env) (st : CtrlWorld) (dh : DevHandle) :
    Option CtrlWorld :=
  if dh.conn ≠ CS_CLOSED then none
  else
    let dh1 := { dh with socket := some 0 }
    let dh2 := device_state_timeout_register env { dh1 with conn := CS_CONNECTING }
    let dh3 := { dh2 with fdRegistered := true }
    some { st with handles := updateHandle st.handles dh3, framing := 0 }

/-- `controller_connect`: create or find the handle named by the entry's
`name` body; an `enabled=false` entry only gets a "Configured down" log; a
non-CLOSED handle, a non-NETCONF_SSH type or a missing address are silently
skipped; otherwise connect over ssh. -/
def controller_connect (env : Env) (st : CtrlWorld) (xn : ConfigEntry) :
    Option CtrlWorld :=
  match xn.name with
  | none => some st
  | some n =>
    match xn.enabled with
    | none => some st
    | some enablestr =>
      let dh0 := device_handle_find st.handles n
      if enablestr = "false" then
        let (hs, dh) := device_handle_new st.handles n
        let dh := { dh with logmsg := some "Configured down" }
        some { st with handles := updateHandle hs dh }
      else if (match dh0 with
               | some dh => decide (dh.conn ≠ CS_CLOSED)
               | none => false) then
        some st
      else if xn.conn_type ≠ some "NETCONF_SSH" then
        some st
      else
        match xn.addr with
        | none => some st
        | some _ =>
          let (hs, dh) := device_handle_new st.handles n
          connect_netconf_ssh env { st with handles := hs } dh

/-- `rpc_reconnect`: iterate the `devices/device` entries of running; skip
entries without a `devname` body, without a handle, with a handle not in
`CS_CLOSED`, or failing the pattern match; reconnect the rest; reply
`<ok/>`. -/
def rpc_reconnect_loop (env : Env) (entries : List ConfigEntry) (st : CtrlWorld)
    (pattern : Option String) : Option CtrlWorld :=
  match entries with
  | [] => some st
  | e :: es =>
    match e.devname with
    | none => rpc_reconnect_loop env es st pattern
    | some devname =>
      match device_handle_find st.handles devname with
      | none => rpc_reconnect_loop env es st pattern
      | some dh =>
        if dh.conn ≠ CS_CLOSED then
          rpc_reconnect_loop env es st pattern
        else if (match pattern with
                 | some p => fnmatchFails p devname
                 | none => false) then
          rpc_reconnect_loop env es st pattern
        else
          match controller_connect env st e with
          | none => none
          | some st1 => rpc_reconnect_loop env es st1 pattern

/-- `rpc_reconnect`: `pattern` is declared NULL in the source and never
assigned from the request, so the request is ignored; on loop completion the
reply is `<ok/>`. -/
def rpc_reconnect (env : Env) (st : CtrlWorld) (_xe : RpcReq) :
    Option (CtrlWorld × Reply) :=
  let pattern : Option String := none
  match rpc_reconnect_loop env st.dbs.running st pattern with
  | none => none
  | some st1 => some (st1, .okReply)

/-- `rpc_transaction_error`: the source body only sets `retval = 0` and
returns; the request is not read, no transaction is touched and nothing is
written to the reply buffer. -/
def rpc_transaction_error (st : CtrlWorld) (_tid : Nat)
    (_origin _reason : Option String) : SyncOut :=
  ⟨.ok, st, [], none⟩

/-! Concrete fixtures used by witnesses and counterexamples. -/

/-- A sample oracle environment with all external calls succeeding. -/
def envT : Env :=
  { now := 100, device_timeout := 0, parseOk := fun _ => true,
    bindOk := true, putOk := true, commitOk := true }

/-- An empty datastore triple. -/
def dbs0 : Dbs := { running := [], candidate := [], files := [] }

/-- A fresh handle for a name. -/
def dh0 (n : String) : DevHandle := (device_handle_new [] n).2

/-- A sample leaf with value 1500. -/
def leafX : XTree := XTree.node "mtu" (some "1500") XForest.nil

/-- A sample leaf with value 1400. -/
def leafY : XTree := XTree.node "mtu" (some "1400") XForest.nil

/-- A sample device root tree. -/
def rootX : XTree := XTree.node "root" none (XForest.cons leafX XForest.nil)

/-- A sample device root tree differing from `rootX` in one leaf value. -/
def rootY : XTree := XTree.node "root" none (XForest.cons leafY XForest.nil)

/-- A `devices/device` entry whose `devname` and `name` bodies are both the
device name. -/
def entryFor (n : String) (r : Option XTree) : ConfigEntry :=
  { devname := some n, name := some n, root := r, enabled := some "true",
    conn_type := some "NETCONF_SSH", addr := some "10.0.0.1", user := none }

/-! ### C5: empty diff pushes nothing -/

/-- C5: for every device push where the previously synced tree equals the
current desired tree of the running datastore, the diff is empty, so
`push_device` sends no edit-config, leaves the handle untouched and the
device remains in the OPEN state, returning 1 so the sync loop continues. -/
theorem C5_push_no_diff (env : Env) (running : List ConfigEntry)
    (dh : DevHandle) (t : XTree) (l : List (String × String))
    (h0 : dh.sync_xml = some t)
    (h1 : runningDeviceRoot running dh.dhName = some t)
    (hy : dh.yspec = some l)
    (hc : dh.conn = CS_OPEN) :
    push_device env running dh = ⟨.ok, dh, [], none⟩ ∧
    (push_device env running dh).dh.conn = CS_OPEN := by
  have hd : xml_diff_tree t t = DiffResult.empty := xml_diff_tree_self t
  have hmain : push_device env running dh = ⟨.ok, dh, [], none⟩ := by
    simp only [push_device, h0, h1, hy, hd, DiffResult.empty]
    simp
  refine ⟨hmain, ?_⟩
  rw [hmain, hc]

/-- A concrete OPEN handle named d1 whose synced tree is `rootX`. -/
def dhOpenSynced : DevHandle :=
  { (dh0 "d1") with
    conn := CS_OPEN
    socket := some 0
    sync_xml := some rootX
    yspec := some [] }

/-- C5 witness: a concrete device in OPEN state whose synced tree equals the
running tree is left untouched by `push_device`. -/
theorem C5_witness :
    push_device envT [entryFor "d1" (some rootX)] dhOpenSynced
      = ⟨.ok, dhOpenSynced, [], none⟩ ∧
    (push_device envT [entryFor "d1" (some rootX)] dhOpenSynced).dh.conn = CS_OPEN :=
  C5_push_no_diff envT [entryFor "d1" (some rootX)] dhOpenSynced
    rootX [] rfl rfl rfl rfl

/-! ### C2: framing hard-coded to sentinel despite base-1.1 -/

/-- A peer hello advertising both base 1.1 and the monitoring capability. -/
def hello11 : InMsg :=
  { rpcname := "hello", ns := some NETCONF_BASE_NAMESPACE,
    caps := some ["urn:ietf:params:netconf:base:1.1",
                  "urn:ietf:params:xml:ns:yang:ietf-netconf-monitoring"],
    schemas := none, yangBody := none, data := none }

/-- A handle for a freshly connected device awaiting hello. -/
def dhConnecting : DevHandle :=
  { (dh0 "d1") with
    conn := CS_CONNECTING
    socket := some 0
    fdRegistered := true
    timer := some 160 }

/-- A world with a freshly connected device awaiting hello. -/
def wConnecting : World :=
  { dh := dhConnecting, dbs := dbs0, framing := 0 }

/-- C2: evaluating the hello exchange at a peer hello that advertises the
base-1.1 capability: the receive succeeds, the capability is stored, yet the
negotiated framing used for the rest of the session is 0 (sentinel), not
chunked (1), because the source hard-codes `version = 0` after detection.
This exhibits the divergence between the code and the claimed
chunked-iff-base-1.1 negotiation. -/
theorem C2_framing_hardcoded :
    (device_state_recv_hello wConnecting hello11).rc = .ok ∧
    (device_state_recv_hello wConnecting hello11).w.dh.capFind
        "urn:ietf:params:netconf:base:1.1" = true ∧
    (device_state_recv_hello wConnecting hello11).w.framing = 0 ∧
    (device_state_recv_hello wConnecting hello11).sent = [OutMsg.helloMsg 0] ∧
    (0 : Nat) ≠ 1 := by
  decide

/-! ### C6: transaction-error RPC acts on nothing -/

/-- A backend state holding one RUNNING transaction with id 1. -/
def ctRunning : CtrlWorld :=
  { handles := [], dbs := dbs0, framing := 0,
    transactions := [{ ct_id := 1, ct_origin := some "cli", ct_state := .RUNNING }] }

/-- C6: evaluating the transaction-error RPC on a state with a RUNNING
transaction whose id names the request tid: the handler returns success,
writes nothing to the reply buffer, and leaves the backend state, in
particular the RUNNING transaction, completely unchanged — the transaction
is not terminated. -/
theorem C6_transaction_error_noop :
    (rpc_transaction_error ctRunning 1 (some "cli") (some "user abort")).st
        = ctRunning ∧
    (rpc_transaction_error ctRunning 1 (some "cli") (some "user abort")).rc = .ok ∧
    (rpc_transaction_error ctRunning 1 (some "cli") (some "user abort")).reply = none ∧
    (rpc_transaction_error ctRunning 1 (some "cli") (some "user abort")).st.transactions
        = [{ ct_id := 1, ct_origin := some "cli", ct_state := .RUNNING }] := by
  decide

/-! ### C9: close does not empty the frame buffer -/

/-- An input event delivering a partial frame then end-of-file. -/
def evEofMidFrame : InputEvent :=
  { payload := "<hello", eom := false, eof := true, frame_state := 0,
    frame_size := 0, valid := true, msg := none }

/-- C9 counterexample: a device in CONNECTING receives part of a frame
followed by end-of-file; the connection closes (state CLOSED, fd and timer
unregistered) but the frame-reassembly buffer still holds the partial frame,
refuting the claimed empty-buffer invariant of the CLOSED state. -/
theorem C9_counterexample :
    (device_input_cb envT wConnecting evEofMidFrame).w.dh.conn = CS_CLOSED ∧
    (device_input_cb envT wConnecting evEofMidFrame).w.dh.frame_buf = "<hello" ∧
    (device_input_cb envT wConnecting evEofMidFrame).w.dh.frame_buf ≠ "" := by
  decide

/-- C9 amended: after `device_close_connection` the device is CLOSED with no
registered fd event, no pending timer and a closed socket, but the
frame-reassembly buffer is left exactly as it was: nothing in the close path
clears it. -/
theorem C9_close_invariant (dh : DevHandle) (msg : Option String) :
    (device_close_connection dh msg).conn = CS_CLOSED ∧
    (device_close_connection dh msg).fdRegistered = false ∧
    (device_close_connection dh msg).timer = none ∧
    (device_close_connection dh msg).socket = none ∧
    (device_close_connection dh msg).frame_buf = dh.frame_buf := by
  simp [device_close_connection]

/-! ### C1: synced snapshot replaced only after successful commit -/

/-- C1: for a device in `CS_DEVICE_SYNC` receiving pulled configuration data
(a well-formed `rpc-reply` that binds to the device yspec), the synced
snapshot — the committed running datastore content for the device together
with the sync timestamp — is replaced only when both the candidate write and
the commit succeed; when the commit (or the write) fails, the candidate is
restored from running, the running datastore and sync timestamp stay
unchanged, the session is closed and the log message is "Failed to commit";
on success the device moves to OPEN and running holds the pulled tree. -/
theorem C1_sync_commit_gate (env : Env) (w : World) (m : InMsg)
    (l : List (String × String))
    (hst : w.dh.conn = CS_DEVICE_SYNC)
    (hrpc : m.rpcname = "rpc-reply")
    (hns : m.ns = some NETCONF_BASE_NAMESPACE)
    (hy : w.dh.yspec = some l)
    (hbind : env.bindOk = true) :
    (¬ (env.putOk = true ∧ env.commitOk = true) →
      (device_state_handler env w m).w.dbs.running = w.dbs.running ∧
      (device_state_handler env w m).w.dbs.candidate = w.dbs.running ∧
      (device_state_handler env w m).w.dh.conn = CS_CLOSED ∧
      (device_state_handler env w m).w.dh.logmsg = some "Failed to commit" ∧
      (device_state_handler env w m).w.dh.sync_time = w.dh.sync_time ∧
      (device_state_handler env w m).w.dh.socket = none) ∧
    (((device_state_handler env w m).w.dbs.running ≠ w.dbs.running ∨
      (device_state_handler env w m).w.dh.sync_time ≠ w.dh.sync_time) →
      env.putOk = true ∧ env.commitOk = true) ∧
    (env.putOk = true → env.commitOk = true →
      (device_state_handler env w m).w.dh.conn = CS_OPEN ∧
      (device_state_handler env w m).w.dh.sync_time = some env.now ∧
      (device_state_handler env w m).w.dbs.running
        = dbPutDeviceRoot w.dbs.candidate w.dh.dhName (pulledRoot m.data)) := by
  by_cases hpc : env.putOk = true ∧ env.commitOk = true
  · have hfacts :
        (device_state_handler env w m).w.dh.conn = CS_OPEN ∧
        (device_state_handler env w m).w.dh.sync_time = some env.now ∧
        (device_state_handler env w m).w.dbs.running
          = dbPutDeviceRoot w.dbs.candidate w.dh.dhName (pulledRoot m.data) := by
      simp only [device_state_handler, device_state_recv_config, hst, hrpc, hns,
        hy, hbind]
      simp [hpc.1, hpc.2, device_state_timeout_unregister]
    exact ⟨fun h => absurd hpc h,
           fun _ => hpc,
           fun _ _ => hfacts⟩
  · have hfacts :
        (device_state_handler env w m).w.dbs.running = w.dbs.running ∧
        (device_state_handler env w m).w.dbs.candidate = w.dbs.running ∧
        (device_state_handler env w m).w.dh.conn = CS_CLOSED ∧
        (device_state_handler env w m).w.dh.logmsg = some "Failed to commit" ∧
        (device_state_handler env w m).w.dh.sync_time = w.dh.sync_time ∧
        (device_state_handler env w m).w.dh.socket = none := by
      simp only [device_state_handler, device_state_recv_config, hst, hrpc, hns,
        hy, hbind]
      simp [hpc, closeW, device_close_connection]
    refine ⟨fun _ => hfacts, fun h => ?_, fun hp hc => absurd ⟨hp, hc⟩ hpc⟩
    rcases h with h | h
    · exact absurd hfacts.1 h
    · exact absurd hfacts.2.2.2.2.1 h

/-- A world with a device in `CS_DEVICE_SYNC` awaiting pulled data. -/
def wDevSync : World :=
  { dh := { (dh0 "d1") with
      conn := CS_DEVICE_SYNC
      socket := some 0
      fdRegistered := true
      timer := some 160
      yspec := some [] }
    dbs := { running := [entryFor "d1" (some rootX)]
             candidate := [entryFor "d1" (some rootX)]
             files := [] }
    framing := 0 }

/-- A pulled-configuration reply carrying `rootY` under `<data>`. -/
def mSyncReply : InMsg :=
  { rpcname := "rpc-reply", ns := some NETCONF_BASE_NAMESPACE, caps := none,
    schemas := none, yangBody := none,
    data := some (XTree.node "data" none (XForest.cons leafY XForest.nil)) }

/-- The environment of the C1 witness: the commit is rejected. -/
def envCommitFail : Env := { envT with commitOk := false }

/-- C1 witness: at a concrete device-sync reply whose commit is rejected,
the handler leaves running unchanged, restores candidate from running,
closes the session and logs "Failed to commit". -/
theorem C1_witness :
    (device_state_handler envCommitFail wDevSync mSyncReply).w.dbs.running
        = wDevSync.dbs.running ∧
    (device_state_handler envCommitFail wDevSync mSyncReply).w.dbs.candidate
        = wDevSync.dbs.running ∧
    (device_state_handler envCommitFail wDevSync mSyncReply).w.dh.conn
        = CS_CLOSED ∧
    (device_state_handler envCommitFail wDevSync mSyncReply).w.dh.logmsg
        = some "Failed to commit" ∧
    (device_state_handler envCommitFail wDevSync mSyncReply).w.dh.sync_time
        = wDevSync.dh.sync_time ∧
    (device_state_handler envCommitFail wDevSync mSyncReply).w.dh.socket
        = none :=
  (C1_sync_commit_gate envCommitFail wDevSync mSyncReply [] rfl rfl rfl rfl rfl).1
    (by simp [envCommitFail, envT])

/-! ### Helper lemmas on the receive functions and the schema phase -/

/-- A 0 return of `device_state_recv_hello` means the connection was
closed. -/
theorem recv_hello_closed_conn (w : World) (m : InMsg) :
    (device_state_recv_hello w m).rc = .closed →
    (device_state_recv_hello w m).w.dh.conn = CS_CLOSED := by
  unfold device_state_recv_hello
  repeat' split
  all_goals try cases hs : w.dh.socket
  all_goals simp [closeW, device_close_connection, hs]


/-- A 0 return of `device_state_recv_schema_list` means the connection was
closed. -/
theorem recv_schema_list_closed_conn (w : World) (m : InMsg) :
    (device_state_recv_schema_list w m).rc = .closed →
    (device_state_recv_schema_list w m).w.dh.conn = CS_CLOSED := by
  unfold device_state_recv_schema_list
  repeat' split
  all_goals simp [closeW, device_close_connection]

/-- A 0 return of `device_state_recv_get_schema` means the connection was
closed. -/
theorem recv_get_schema_closed_conn (w : World) (m : InMsg) :
    (device_state_recv_get_schema w m).rc = .closed →
    (device_state_recv_get_schema w m).w.dh.conn = CS_CLOSED := by
  unfold device_state_recv_get_schema
  repeat' split
  all_goals simp [closeW, device_close_connection]

/-- A 0 return of `device_state_recv_config` means the connection was
closed. -/
theorem recv_config_closed_conn (env : Env) (w : World) (m : InMsg) :
    (device_state_recv_config env w m).rc = .closed →
    (device_state_recv_config env w m).w.dh.conn = CS_CLOSED := by
  unfold device_state_recv_config
  repeat' split
  all_goals simp [closeW, device_close_connection]

/-- Any 0-return (completed) outcome of the schema phase that leaves the
device in a transient state carries a freshly registered timeout. -/
theorem schemaPhase_transient_timer (env : Env) (w : World) (acc : List OutMsg)
    (nr0 : Nat) (setOne : Bool) :
    (schemaPhase env w acc nr0 setOne).rc = .ok →
    (schemaPhase env w acc nr0 setOne).w.dh.conn ≠ CS_CLOSED →
    (schemaPhase env w acc nr0 setOne).w.dh.conn ≠ CS_OPEN →
    (schemaPhase env w acc nr0 setOne).w.dh.timer
      = some (env.now + timeoutDuration env.device_timeout) := by
  rcases hg : device_send_get_schema_next w nr0 with ⟨grc, gf, gnr, gw, gsent⟩
  rcases hp : device_state_schemas_ready env gw with ⟨prc, pw, psent⟩
  rcases hs : device_send_sync pw with ⟨src, sw, ssent⟩
  unfold schemaPhase
  rcases grc <;> rcases gf <;> rcases prc <;> rcases src <;>
    simp [hg, hp, hs, closeW, device_close_connection,
      device_state_timeout_restart, device_state_timeout_register,
      device_state_timeout_unregister]

/-- Any completed (0-return) handler step that leaves the device in a
transient (neither CLOSED nor OPEN) state carries a freshly registered
timeout: every transition into a transient state goes through
`device_state_timeout_restart`. -/
theorem handler_transient_timer (env : Env) (w : World) (m : InMsg) :
    (device_state_handler env w m).rc = .ok →
    (device_state_handler env w m).w.dh.conn ≠ CS_CLOSED →
    (device_state_handler env w m).w.dh.conn ≠ CS_OPEN →
    (device_state_handler env w m).w.dh.timer
      = some (env.now + timeoutDuration env.device_timeout) := by
  rcases hconn : w.dh.conn
  case CS_CLOSED =>
    simp [device_state_handler, hconn, closeW, device_close_connection]
  case CS_OPEN =>
    simp [device_state_handler, hconn, closeW, device_close_connection]
  case CS_WRESP =>
    simp [device_state_handler, hconn, closeW, device_close_connection]
  case CS_PUSH_EDIT =>
    simp [device_state_handler, hconn, closeW, device_close_connection]
  case CS_CONNECTING =>
    have hcl := recv_hello_closed_conn w m
    rcases hr : device_state_recv_hello w m with ⟨rrc, rw, rsent⟩
    rw [hr] at hcl
    simp only [device_state_handler, hconn, hr]
    rcases rrc
    · simp
    · simp at hcl
      intro _ hnc _
      exact absurd hcl hnc
    · rcases hs : device_send_get_schema_list
        { rw with dh := { rw.dh with yspec := some [] } } with ⟨src, sw, ssent⟩
      simp only [hs]
      split_ifs with hcap <;> rcases src <;>
        simp [closeW, device_close_connection, device_state_timeout_restart,
          device_state_timeout_register, device_state_timeout_unregister]
  case CS_SCHEMA_LIST =>
    rcases hr : device_state_recv_schema_list w m with ⟨rrc, rw, rsent⟩
    simp only [device_state_handler, hconn, hr]
    rcases rrc
    · simp
    · exact schemaPhase_transient_timer env rw rsent 0 true
    · exact schemaPhase_transient_timer env rw rsent 0 true
  case CS_SCHEMA_ONE =>
    have hcl := recv_get_schema_closed_conn w m
    rcases hr : device_state_recv_get_schema w m with ⟨rrc, rw, rsent⟩
    rw [hr] at hcl
    simp only [device_state_handler, hconn, hr]
    rcases rrc
    · simp
    · simp at hcl
      intro _ hnc _
      exact absurd hcl hnc
    · exact schemaPhase_transient_timer env rw rsent rw.dh.nr_schemas false
  case CS_DEVICE_SYNC =>
    have hcl := recv_config_closed_conn env w m
    rcases hr : device_state_recv_config env w m with ⟨rrc, rw, rsent⟩
    rw [hr] at hcl
    simp only [device_state_handler, hconn, hr]
    rcases rrc
    · simp
    · simp at hcl
      intro _ hnc _
      exact absurd hcl hnc
    · simp [device_state_timeout_unregister]

/-! ### C3: transient-state timeout -/

/-- C3: the timeout callback of transient states closes the connection with
log message "Timeout waiting for remote peer" (reaching CLOSED with no
pending timer); the timeout duration defaults to 60 seconds when the
`controller_device_timeout` option is unset; a restart cancels the previous
timer and registers a fresh one; and every completed handler transition that
leaves the device in a transient (non-CLOSED, non-OPEN) state carries a
freshly registered timeout. -/
theorem C3_transient_timeout (env : Env) (w : World) (m : InMsg) (dh : DevHandle) :
    ((device_state_timeout dh).conn = CS_CLOSED ∧
     (device_state_timeout dh).logmsg = some "Timeout waiting for remote peer" ∧
     (device_state_timeout dh).timer = none) ∧
    timeoutDuration 0 = 60 ∧
    (device_state_timeout_restart env dh).timer
        = some (env.now + timeoutDuration env.device_timeout) ∧
    ((device_state_handler env w m).rc = .ok →
      (device_state_handler env w m).w.dh.conn ≠ CS_CLOSED →
      (device_state_handler env w m).w.dh.conn ≠ CS_OPEN →
      (device_state_handler env w m).w.dh.timer
        = some (env.now + timeoutDuration env.device_timeout)) := by
  refine ⟨⟨?_, ?_, ?_⟩, ?_, ?_, handler_transient_timer env w m⟩ <;>
    simp [device_state_timeout, device_close_connection, timeoutDuration,
      device_state_timeout_restart, device_state_timeout_register,
      device_state_timeout_unregister]

/-- C3 witness: the concrete hello transition into the transient
`CS_SCHEMA_LIST` state registers the default 60-second timeout. -/
theorem C3_witness :
    (device_state_handler envT wConnecting hello11).rc = .ok ∧
    (device_state_handler envT wConnecting hello11).w.dh.conn = CS_SCHEMA_LIST ∧
    (device_state_handler envT wConnecting hello11).w.dh.timer = some 160 := by
  have h := (C3_transient_timeout envT wConnecting hello11 dhConnecting).2.2.2
  exact ⟨by decide, by decide,
    by simpa [envT, timeoutDuration] using h (by decide) (by decide) (by decide)⟩

/-! ### C4: totality and the unexpected-message transition -/

/-- The RPC name each connection state expects; states with no receive
function expect nothing. -/
def expectedRpcName : conn_state → Option String
  | CS_CONNECTING => some "hello"
  | CS_SCHEMA_LIST => some "rpc-reply"
  | CS_SCHEMA_ONE => some "rpc-reply"
  | CS_DEVICE_SYNC => some "rpc-reply"
  | _ => none

/-- C4: the state machine is total — `device_state_handler` is defined on
every (connection state, message) pair — and a message whose RPC name is not
the one expected in the current state closes the session, leaving the device
CLOSED with log message "Unexpected msg X in state Y" for the states Y named
in `csmap` (the hypothesis on the parse oracle covers the
`CS_SCHEMA_LIST` case, where the source continues after the close and would
re-parse an empty module set). -/
theorem C4_unexpected_closes (env : Env) (w : World) (m : InMsg)
    (hparse : env.parseOk none = true)
    (hun : expectedRpcName w.dh.conn ≠ some m.rpcname) :
    (device_state_handler env w m).w.dh.conn = CS_CLOSED ∧
    (∀ y, device_state_int2str w.dh.conn = some y →
      (device_state_handler env w m).w.dh.logmsg
        = some ("Unexpected msg " ++ m.rpcname ++ " in state " ++ y)) := by
  rcases hconn : w.dh.conn
  case CS_CLOSED =>
    refine ⟨by simp [device_state_handler, hconn, closeW, device_close_connection], ?_⟩
    intro y hy
    simp [device_state_int2str, csmap] at hy
    subst hy
    simp [device_state_handler, hconn, closeW, device_close_connection,
      unexpectedMsgLog, strOrNull, device_state_int2str, csmap]
  case CS_OPEN =>
    refine ⟨by simp [device_state_handler, hconn, closeW, device_close_connection], ?_⟩
    intro y hy
    simp [device_state_int2str, csmap] at hy
    subst hy
    simp [device_state_handler, hconn, closeW, device_close_connection,
      unexpectedMsgLog, strOrNull, device_state_int2str, csmap]
  case CS_WRESP =>
    refine ⟨by simp [device_state_handler, hconn, closeW, device_close_connection], ?_⟩
    intro y hy
    simp [device_state_int2str, csmap] at hy
    subst hy
    simp [device_state_handler, hconn, closeW, device_close_connection,
      unexpectedMsgLog, strOrNull, device_state_int2str, csmap]
  case CS_PUSH_EDIT =>
    refine ⟨by simp [device_state_handler, hconn, closeW, device_close_connection], ?_⟩
    intro y hy
    simp [device_state_int2str, csmap] at hy
  case CS_CONNECTING =>
    have hne : ¬ m.rpcname = "hello" := by
      intro h
      exact hun (by simp [hconn, h, expectedRpcName])
    refine ⟨by simp [device_state_handler, hconn, device_state_recv_hello, hne,
      closeW, device_close_connection], ?_⟩
    intro y hy
    simp [device_state_int2str, csmap] at hy
    subst hy
    simp [device_state_handler, hconn, device_state_recv_hello, hne, closeW,
      device_close_connection, unexpectedMsgLog, strOrNull,
      device_state_int2str, csmap]
  case CS_SCHEMA_LIST =>
    have hne : ¬ m.rpcname = "rpc-reply" := by
      intro h
      exact hun (by simp [hconn, h, expectedRpcName])
    rcases hys : w.dh.yspec with _ | loaded
    all_goals
      refine ⟨by simp [device_state_handler, hconn, device_state_recv_schema_list,
        hne, schemaPhase, device_send_get_schema_next, closeW,
        device_close_connection, hys, schema_next_loop,
        device_state_schemas_ready, hparse, device_send_sync, sendRpc], ?_⟩
    all_goals
      intro y hy
      simp [device_state_int2str, csmap] at hy
      subst hy
      simp [device_state_handler, hconn, device_state_recv_schema_list, hne,
        schemaPhase, device_send_get_schema_next, closeW,
        device_close_connection, hys, schema_next_loop,
        device_state_schemas_ready, hparse, device_send_sync, sendRpc,
        unexpectedMsgLog, strOrNull, device_state_int2str, csmap]
  case CS_SCHEMA_ONE =>
    have hne : ¬ m.rpcname = "rpc-reply" := by
      intro h
      exact hun (by simp [hconn, h, expectedRpcName])
    refine ⟨by simp [device_state_handler, hconn, device_state_recv_get_schema,
      hne, closeW, device_close_connection], ?_⟩
    intro y hy
    simp [device_state_int2str, csmap] at hy
    subst hy
    simp [device_state_handler, hconn, device_state_recv_get_schema, hne,
      closeW, device_close_connection, unexpectedMsgLog, strOrNull,
      device_state_int2str, csmap]
  case CS_DEVICE_SYNC =>
    have hne : ¬ m.rpcname = "rpc-reply" := by
      intro h
      exact hun (by simp [hconn, h, expectedRpcName])
    refine ⟨by simp [device_state_handler, hconn, device_state_recv_config,
      hne, closeW, device_close_connection], ?_⟩
    intro y hy
    simp [device_state_int2str, csmap] at hy
    subst hy
    simp [device_state_handler, hconn, device_state_recv_config, hne, closeW,
      device_close_connection, unexpectedMsgLog, strOrNull,
      device_state_int2str, csmap]

/-- A get-config reply arriving in the stable OPEN state. -/
def strayReply : InMsg :=
  { rpcname := "rpc-reply", ns := some NETCONF_BASE_NAMESPACE, caps := none,
    schemas := none, yangBody := none, data := none }

/-- A world with the d1 device OPEN. -/
def wOpen : World :=
  { dh := dhOpenSynced, dbs := dbs0, framing := 0 }

/-- C4 witness: a stray `rpc-reply` in the OPEN state (which expects no
message) closes the session with "Unexpected msg rpc-reply in state OPEN". -/
theorem C4_witness :
    (device_state_handler envT wOpen strayReply).w.dh.conn = CS_CLOSED ∧
    (device_state_handler envT wOpen strayReply).w.dh.logmsg
      = some "Unexpected msg rpc-reply in state OPEN" := by
  have h := C4_unexpected_closes envT wOpen strayReply rfl (by decide)
  exact ⟨h.1, by simpa using h.2 "OPEN" (by decide)⟩

/-! ### C7: a per-device failure aborts the fan-out loop -/

/-- A d1 handle in OPEN state that has never been synced. -/
def dhNoSync : DevHandle :=
  { (dh0 "d1") with
    conn := CS_OPEN
    socket := some 0
    yspec := some [] }

/-- A d2 handle in OPEN state synced to `rootX`. -/
def dhD2 : DevHandle :=
  { (dh0 "d2") with
    conn := CS_OPEN
    socket := some 0
    yspec := some []
    sync_xml := some rootX }

/-- A running datastore configuring d1 and d2, where d2 has a pending change
(`rootY` differs from its synced `rootX`). -/
def c7Run : List ConfigEntry :=
  [entryFor "d1" (some rootX), entryFor "d2" (some rootY)]

/-- The backend state of the C7 counterexample. -/
def c7St : CtrlWorld :=
  { handles := [dhNoSync, dhD2]
    dbs := { running := c7Run, candidate := [], files := [] }
    framing := 0
    transactions := [] }

/-- C7 counterexample: in a push across d1 and d2 where d1 fails
(no synced tree), the loop aborts: the RPC replies with d1's failure and d2 —
although eligible, with a non-empty pending diff that `push_device` would
have sent — is never driven and its handle is untouched. -/
theorem C7_counterexample :
    (rpc_sync envT c7St ⟨none⟩ true).reply
        = some (.failReply "No synced device tree") ∧
    (rpc_sync envT c7St ⟨none⟩ true).sent = [] ∧
    device_handle_find (rpc_sync envT c7St ⟨none⟩ true).st.handles "d2"
        = some dhD2 ∧
    (push_device envT c7Run dhD2).rc = .ok ∧
    (push_device envT c7Run dhD2).sent ≠ [] := by
  refine ⟨by decide, by decide, by decide, ?_, ?_⟩ <;>
  · have hlt : ¬ ("mtu" : String) < "mtu" := lt_irrefl _
    simp [push_device, dhD2, dh0, device_handle_new, device_handle_find, c7Run,
      runningDeviceRoot, entryFor, rootX, rootY, leafX, leafY, xml_diff_tree,
      xml_diff_forest, XTree.name, XTree.value, hlt, DiffResult.append,
      DiffResult.empty, device_state_timeout_register]

/-- C7 amended: once the prefix of the device loop has produced a failure
reply, the devices after the failing entry are irrelevant: the loop result
over the extended entry list equals the result over the failing prefix, so
later participants are neither driven nor modified, while participants
driven before the failure keep their in-flight state (they are not
cancelled); the RPC returns the failure immediately without waiting. -/
theorem C7_failure_aborts_fanout (env : Env) (es1 es2 : List ConfigEntry)
    (st : CtrlWorld) (pattern : Option String) (push : Bool)
    (acc : List (String × OutMsg)) (reason : String)
    (hfail : (rpc_sync_loop env es1 st pattern push acc).reply
        = some (.failReply reason)) :
    rpc_sync_loop env (es1 ++ es2) st pattern push acc
      = rpc_sync_loop env es1 st pattern push acc := by
  induction es1 generalizing st acc
  case nil => simp [rpc_sync_loop] at hfail
  case cons e es ih =>
    rcases hd : e.devname with _ | devname
    · simp only [List.cons_append, rpc_sync_loop, hd] at hfail ⊢
      exact ih st acc hfail
    · rcases hf : device_handle_find st.handles devname with _ | dh
      · simp only [List.cons_append, rpc_sync_loop, hd, hf] at hfail ⊢
        exact ih st acc hfail
      · by_cases hcn : dh.conn = CS_OPEN
        · cases hb : (match pattern with
              | some p => fnmatchFails p devname
              | none => false)
          · rcases hr : (if push then push_device env st.dbs.running dh
                         else pull_device env dh) with ⟨rrc, rdh, rsent, rcb⟩
            rcases rrc
            · simp [List.cons_append, rpc_sync_loop, hd, hf, hcn, hb, hr] at hfail
            · simp [List.cons_append, rpc_sync_loop, hd, hf, hcn, hb, hr]
            · simp only [List.cons_append, rpc_sync_loop, hd, hf] at hfail ⊢
              simp only [hcn, hb, hr, ne_eq, not_true_eq_false, if_false,
                Bool.false_eq_true] at hfail ⊢
              exact ih _ _ hfail
          · simp only [List.cons_append, rpc_sync_loop, hd, hf] at hfail ⊢
            simp only [hcn, hb, ne_eq, not_true_eq_false, if_false,
              if_true] at hfail ⊢
            exact ih st acc hfail
        · simp only [List.cons_append, rpc_sync_loop, hd, hf] at hfail ⊢
          simp only [if_pos hcn] at hfail ⊢
          exact ih st acc hfail

/-- C7 witness: the amended suffix-irrelevance theorem applied to the
concrete failing prefix of the counterexample state. -/
theorem C7_witness :
    rpc_sync_loop envT ([entryFor "d1" (some rootX)] ++ [entryFor "d2" (some rootY)])
        c7St none true []
      = rpc_sync_loop envT [entryFor "d1" (some rootX)] c7St none true [] :=
  C7_failure_aborts_fanout envT [entryFor "d1" (some rootX)]
    [entryFor "d2" (some rootY)] c7St none true [] "No synced device tree"
    (by decide)

/-! ### C8: the devname glob pattern of the request is ignored -/

/-- An OPEN handle named `a`, synced. -/
def dhA : DevHandle :=
  { (dh0 "a") with
    conn := CS_OPEN
    socket := some 0
    yspec := some []
    sync_xml := some rootX }

/-- A backend state configuring only device `a`, which is OPEN. -/
def c8St : CtrlWorld :=
  { handles := [dhA]
    dbs := { running := [entryFor "a" (some rootX)], candidate := [], files := [] }
    framing := 0
    transactions := [] }

/-- C8 counterexample: a sync-pull whose request carries the glob pattern
`b*` — which does not match the device name `a` — still drives device `a`
(a get-config is sent to it), because the handler never reads the request
pattern.  This refutes the claim that only devices matching the supplied
pattern are operated on. -/
theorem C8_counterexample :
    (rpc_sync envT c8St ⟨some "b*"⟩ false).sent
        = [("a", OutMsg.getConfigRunning 1)] ∧
    fnmatchFails "b*" "a" = true := by
  refine ⟨by decide, ?_⟩
  simp [fnmatchFails, globMatch, String.toList]

/-- C8 amended: `rpc_sync` (both pull and push) and `rpc_reconnect` ignore
the `devname` element of the request: the internal `pattern` variable is
never assigned from the request (it stays NULL, so the fnmatch filter never
excludes a device), and the outcome is therefore independent of the supplied
pattern — every configured device whose handle is in the required state is
operated on regardless of it. -/
theorem C8_pattern_ignored (env : Env) (st : CtrlWorld) (xe1 xe2 : RpcReq)
    (push : Bool) :
    rpc_sync env st xe1 push = rpc_sync env st xe2 push ∧
    rpc_sync env st xe1 push = rpc_sync_loop env st.dbs.running st none push [] ∧
    rpc_reconnect env st xe1 = rpc_reconnect env st xe2 :=
  ⟨rfl, rfl, rfl⟩

/-! ### C10: non-OPEN devices are silently skipped and the reply is ok -/

/-- Messages tagged with a device name other than `n` contribute nothing to
the per-`n` filter of the sent list. -/
theorem filter_map_tag_ne (devname n : String) (ms : List OutMsg)
    (h : devname ≠ n) :
    (ms.map (fun m => (devname, m))).filter (fun p => p.1 = n) = [] := by
  induction ms <;> simp_all

/-- A found handle bears the looked-up name. -/
theorem device_handle_find_name (hs : List DevHandle) (n : String)
    (dh : DevHandle) (h : device_handle_find hs n = some dh) :
    dh.dhName = n := by
  induction hs
  case nil => simp [device_handle_find, List.find?] at h
  case cons d ds ih =>
    unfold device_handle_find at h
    rw [List.find?_cons] at h
    by_cases hd : d.dhName = n
    · simp [hd] at h
      rw [← h]
      exact hd
    · simp [hd] at h
      exact ih (by simpa [device_handle_find] using h)

/-- A found handle is in the handle list. -/
theorem device_handle_find_mem (hs : List DevHandle) (n : String)
    (dh : DevHandle) (h : device_handle_find hs n = some dh) :
    dh ∈ hs := by
  unfold device_handle_find at h
  exact List.mem_of_find?_eq_some h

/-- Updating a handle of a different name leaves a lookup unchanged. -/
theorem updateHandle_find_ne (hs : List DevHandle) (x : DevHandle) (n : String)
    (hx : x.dhName ≠ n) :
    device_handle_find (updateHandle hs x) n = device_handle_find hs n := by
  induction hs
  case nil => rfl
  case cons d ds ih =>
    simp only [updateHandle]
    by_cases hd : d.dhName = x.dhName
    · rw [if_pos hd]
      have h2 : ¬ d.dhName = n := by rw [hd]; exact hx
      simp only [device_handle_find, List.find?_cons]
      simp [hx, h2]
    · rw [if_neg hd]
      simp only [device_handle_find, List.find?_cons]
      by_cases hn : d.dhName = n
      · simp [hn]
      · have hdec : (decide (d.dhName = n)) = false := by simp [hn]
        simp only [hdec]
        simpa [device_handle_find] using ih

/-- Members of an updated handle list are old members or the new handle. -/
theorem mem_updateHandle (hs : List DevHandle) (x d : DevHandle)
    (h : d ∈ updateHandle hs x) : d ∈ hs ∨ d = x := by
  induction hs
  case nil => simp [updateHandle] at h
  case cons e es ih =>
    unfold updateHandle at h
    by_cases he : e.dhName = x.dhName
    · rw [if_pos he] at h
      rcases List.mem_cons.mp h with h1 | h1
      · exact Or.inr h1
      · exact Or.inl (List.mem_cons_of_mem _ h1)
    · rw [if_neg he] at h
      rcases List.mem_cons.mp h with h1 | h1
      · exact Or.inl (h1 ▸ List.mem_cons_self _ _)
      · rcases ih h1 with h2 | h2
        · exact Or.inl (List.mem_cons_of_mem _ h2)
        · exact Or.inr h2

/-- `push_device` preserves the handle identity fields (name, socket, synced
tree, yspec). -/
theorem push_device_preserves (env : Env) (db : List ConfigEntry)
    (dh : DevHandle) :
    (push_device env db dh).dh.dhName = dh.dhName ∧
    (push_device env db dh).dh.socket = dh.socket ∧
    (push_device env db dh).dh.sync_xml = dh.sync_xml ∧
    (push_device env db dh).dh.yspec = dh.yspec := by
  unfold push_device
  refine ⟨?_, ?_, ?_, ?_⟩
  all_goals repeat' split
  all_goals simp only [ne_eq]
  all_goals repeat' split
  all_goals simp [device_state_timeout_register]

/-- `pull_device` preserves the handle identity fields. -/
theorem pull_device_preserves (env : Env) (dh : DevHandle) :
    (pull_device env dh).dh.dhName = dh.dhName ∧
    (pull_device env dh).dh.socket = dh.socket ∧
    (pull_device env dh).dh.sync_xml = dh.sync_xml ∧
    (pull_device env dh).dh.yspec = dh.yspec := by
  unfold pull_device
  refine ⟨?_, ?_, ?_, ?_⟩
  all_goals simp only [ne_eq]
  all_goals repeat' split
  all_goals simp [device_state_timeout_register]

/-- With a socket, a synced tree, a yspec and a configured running root, a
push succeeds (with 1: either an edit is sent or the diff is empty). -/
theorem push_device_ok (env : Env) (db : List ConfigEntry) (dh : DevHandle)
    (hs : dh.socket ≠ none) (hx : dh.sync_xml ≠ none) (hy : dh.yspec ≠ none)
    (hr : runningDeviceRoot db dh.dhName ≠ none) :
    (push_device env db dh).rc = .ok := by
  unfold push_device
  repeat' split
  all_goals simp only [ne_eq]
  all_goals repeat' split
  all_goals simp_all [device_state_timeout_register]

/-- With a socket, a pull succeeds. -/
theorem pull_device_ok (env : Env) (dh : DevHandle) (hs : dh.socket ≠ none) :
    (pull_device env dh).rc = .ok := by
  unfold pull_device
  simp only [ne_eq]
  repeat' split
  all_goals simp_all [device_state_timeout_register]

/-- A succeeding push either leaves the handle untouched (empty diff) or
moves it to `CS_PUSH_EDIT`. -/
theorem push_device_ok_conn (env : Env) (db : List ConfigEntry) (dh : DevHandle)
    (h : (push_device env db dh).rc = .ok) :
    (push_device env db dh).dh = dh ∨
    (push_device env db dh).dh.conn = CS_PUSH_EDIT := by
  unfold push_device at h ⊢
  repeat' split
  all_goals simp only [ne_eq] at h ⊢
  all_goals repeat' split
  all_goals simp_all [device_state_timeout_register]

/-- A succeeding pull moves the handle to `CS_DEVICE_SYNC`. -/
theorem pull_device_ok_conn (env : Env) (dh : DevHandle)
    (h : (pull_device env dh).rc = .ok) :
    (pull_device env dh).dh.conn = CS_DEVICE_SYNC := by
  unfold pull_device at h ⊢
  simp only [ne_eq] at h ⊢
  repeat' split
  all_goals simp_all [device_state_timeout_register]

/-- The loop preconditions of an OPEN handle: an open socket and, for a
push, a synced tree, a yspec and a configured running root. -/
def handleReady (push : Bool) (db : List ConfigEntry) (dh : DevHandle) : Prop :=
  dh.socket ≠ none ∧ (push = true → dh.sync_xml ≠ none ∧ dh.yspec ≠ none ∧
    runningDeviceRoot db dh.dhName ≠ none)

instance (push : Bool) (db : List ConfigEntry) (dh : DevHandle) :
    Decidable (handleReady push db dh) := by
  unfold handleReady
  infer_instance

/-- The driven step of the loop preserves the handle identity fields. -/
theorem drive_preserves (env : Env) (push : Bool) (db : List ConfigEntry)
    (dh : DevHandle) :
    (if push then push_device env db dh else pull_device env dh).dh.dhName = dh.dhName ∧
    (if push then push_device env db dh else pull_device env dh).dh.socket = dh.socket ∧
    (if push then push_device env db dh else pull_device env dh).dh.sync_xml = dh.sync_xml ∧
    (if push then push_device env db dh else pull_device env dh).dh.yspec = dh.yspec := by
  cases push
  · simpa using pull_device_preserves env dh
  · simpa using push_device_preserves env db dh

/-- A ready handle is driven successfully. -/
theorem drive_ok (env : Env) (push : Bool) (db : List ConfigEntry)
    (dh : DevHandle) (hready : handleReady push db dh) :
    (if push then push_device env db dh else pull_device env dh).rc = .ok := by
  cases push
  · simpa using pull_device_ok env dh hready.1
  · rcases hready.2 rfl with ⟨h1, h2, h3⟩
    simpa using push_device_ok env db dh hready.1 h1 h2 h3

/-- A successfully driven handle is unchanged or leaves the OPEN state. -/
theorem drive_ok_conn (env : Env) (push : Bool) (db : List ConfigEntry)
    (dh : DevHandle)
    (h : (if push then push_device env db dh else pull_device env dh).rc = .ok) :
    (if push then push_device env db dh else pull_device env dh).dh = dh ∨
    (if push then push_device env db dh else pull_device env dh).dh.conn ≠ CS_OPEN := by
  cases push
  · right
    have h2 := pull_device_ok_conn env dh (by simpa using h)
    simp [h2]
  · have h2 := push_device_ok_conn env db dh (by simpa using h)
    rcases h2 with h3 | h3
    · exact Or.inl (by simpa using h3)
    · right
      simp [h3]

/-- The invariant walk of the `rpc_sync` device loop: if the handle named
`n` is absent or not OPEN, and every OPEN handle meets its loop
preconditions, the loop completes with return 0 and reply ok, never sends a
message to `n` and leaves the handle lookup for `n` unchanged. -/
theorem rpc_sync_loop_skip_ok (env : Env) (push : Bool)
    (pattern : Option String) (n : String) (db : List ConfigEntry)
    (entries : List ConfigEntry) :
    ∀ (st : CtrlWorld) (acc : List (String × OutMsg)),
    st.dbs.running = db →
    (∀ dh, device_handle_find st.handles n = some dh → dh.conn ≠ CS_OPEN) →
    (∀ dh ∈ st.handles, dh.conn = CS_OPEN → handleReady push db dh) →
    (rpc_sync_loop env entries st pattern push acc).rc = .ok ∧
    (rpc_sync_loop env entries st pattern push acc).reply = some .okReply ∧
    (rpc_sync_loop env entries st pattern push acc).sent.filter
        (fun p => p.1 = n)
      = acc.filter (fun p => p.1 = n) ∧
    device_handle_find (rpc_sync_loop env entries st pattern push acc).st.handles n
      = device_handle_find st.handles n := by
  induction entries
  case nil =>
    intro st acc hdb hn hall
    simp [rpc_sync_loop]
  case cons e es ih =>
    intro st acc hdb hn hall
    rcases hd : e.devname with _ | devname
    · simp only [rpc_sync_loop, hd]
      exact ih st acc hdb hn hall
    · rcases hf : device_handle_find st.handles devname with _ | dh
      · simp only [rpc_sync_loop, hd, hf]
        exact ih st acc hdb hn hall
      · by_cases hcn : dh.conn = CS_OPEN
        · cases hb : (match pattern with
              | some p => fnmatchFails p devname
              | none => false)
          · -- the device is driven
            have hdhn : dh.dhName = devname := device_handle_find_name _ _ _ hf
            have hmem : dh ∈ st.handles := device_handle_find_mem _ _ _ hf
            have hready : handleReady push db dh := hall dh hmem hcn
            have hdn : devname ≠ n := by
              intro hEq
              subst hEq
              exact hn dh hf hcn
            have hok : (if push then push_device env st.dbs.running dh
                        else pull_device env dh).rc = .ok := by
              rw [hdb]
              exact drive_ok env push db dh hready
            rcases hr : (if push then push_device env st.dbs.running dh
                         else pull_device env dh) with ⟨rrc, rdh, rsent, rcb⟩
            rw [hr] at hok
            simp only at hok
            subst hok
            have hpres : rdh.dhName = dh.dhName ∧ rdh.socket = dh.socket ∧
                rdh.sync_xml = dh.sync_xml ∧ rdh.yspec = dh.yspec := by
              have h5 := drive_preserves env push st.dbs.running dh
              rw [hr] at h5
              simpa using h5
            have hconn2 : rdh = dh ∨ rdh.conn ≠ CS_OPEN := by
              have h5 := drive_ok_conn env push st.dbs.running dh (by rw [hr])
              rw [hr] at h5
              simpa using h5
            set st1 : CtrlWorld := { st with handles := updateHandle st.handles rdh } with hst1
            have hn1 : ∀ dh2, device_handle_find st1.handles n = some dh2 →
                dh2.conn ≠ CS_OPEN := by
              intro dh2 h2
              apply hn dh2
              rw [hst1] at h2
              simp only at h2
              rwa [updateHandle_find_ne st.handles rdh n
                (by rw [hpres.1, hdhn]; exact hdn)] at h2
            have hall1 : ∀ dh2 ∈ st1.handles, dh2.conn = CS_OPEN →
                handleReady push db dh2 := by
              intro dh2 h2 hc2
              rcases mem_updateHandle st.handles rdh dh2 (by simpa [hst1] using h2)
                  with h3 | h3
              · exact hall dh2 h3 hc2
              · subst h3
                rcases hconn2 with h4 | h4
                · rw [h4]
                  exact hready
                · exact absurd hc2 h4
            have hrec := ih st1 (acc ++ rsent.map (fun m => (devname, m)))
              (by rw [hst1]; exact hdb) hn1 hall1
            have hfind1 : device_handle_find st1.handles n
                = device_handle_find st.handles n := by
              rw [hst1]
              simp only
              exact updateHandle_find_ne st.handles rdh n
                (by rw [hpres.1, hdhn]; exact hdn)
            simp only [rpc_sync_loop, hd, hf, hcn, hb, hr, ne_eq,
              not_true_eq_false, if_false, Bool.false_eq_true] at hrec ⊢
            refine ⟨hrec.1, hrec.2.1, ?_, ?_⟩
            · rw [hrec.2.2.1, List.filter_append, filter_map_tag_ne devname n rsent hdn,
                List.append_nil]
            · rw [hrec.2.2.2, hfind1]
          · simp only [rpc_sync_loop, hd, hf, hcn, hb, ne_eq, not_true_eq_false,
              if_false, if_true]
            exact ih st acc hdb hn hall
        · simp only [rpc_sync_loop, hd, hf]
          rw [if_pos hcn]
          exact ih st acc hdb hn hall

/-- C10: for a sync-pull or sync-push RPC, a configured device whose handle
is absent or not in the OPEN state is silently skipped: no request is sent
to it, its handle is untouched, no error is reported for it; and when every
driven device meets its preconditions (so no processed device fails), the
RPC replies `<ok/>` with return code 0. -/
theorem C10_skip_and_ok (env : Env) (st : CtrlWorld) (xe : RpcReq) (push : Bool)
    (n : String)
    (hn : ∀ dh, device_handle_find st.handles n = some dh → dh.conn ≠ CS_OPEN)
    (hall : ∀ dh ∈ st.handles, dh.conn = CS_OPEN →
      handleReady push st.dbs.running dh) :
    (rpc_sync env st xe push).sent.filter (fun p => p.1 = n) = [] ∧
    device_handle_find (rpc_sync env st xe push).st.handles n
      = device_handle_find st.handles n ∧
    (rpc_sync env st xe push).reply = some .okReply ∧
    (rpc_sync env st xe push).rc = .ok := by
  have h := rpc_sync_loop_skip_ok env push none n st.dbs.running
    st.dbs.running st [] rfl hn hall
  exact ⟨by simpa [rpc_sync] using h.2.2.1, by simpa [rpc_sync] using h.2.2.2,
    by simpa [rpc_sync] using h.2.1, by simpa [rpc_sync] using h.1⟩

/-- The backend state of the C10 witness: device `a` is OPEN, device `b` has
a CLOSED handle, device `c` is configured but has no handle. -/
def c10St : CtrlWorld :=
  { handles := [dh0 "b", dhA]
    dbs := { running := [entryFor "a" (some rootX), entryFor "b" (some rootX),
                         entryFor "c" none]
             candidate := []
             files := [] }
    framing := 0
    transactions := [] }

/-- C10 witness: at the concrete state, the pull drives only device `a`,
sends nothing to the CLOSED device `b`, leaves its handle untouched, and
still replies ok. -/
theorem C10_witness :
    (rpc_sync envT c10St ⟨none⟩ false).sent.filter (fun p => p.1 = "b") = [] ∧
    device_handle_find (rpc_sync envT c10St ⟨none⟩ false).st.handles "b"
      = device_handle_find c10St.handles "b" ∧
    (rpc_sync envT c10St ⟨none⟩ false).reply = some .okReply ∧
    (rpc_sync envT c10St ⟨none⟩ false).rc = .ok := by
  refine C10_skip_and_ok envT c10St ⟨none⟩ false "b" ?_ (by decide)
  intro dh hdh
  rw [show device_handle_find c10St.handles "b" = some (dh0 "b") from by decide]
    at hdh
  injection hdh with h
  subst h
  decide

end Controller
